import Mathlib

/-!
Shallow embedding of the request-normalization / multi-backend dispatch /
protocol-adapter layer of the documentation-site worker.

Two worker variants are modelled:
  - the new unified worker (src/worker/src/index.ts), and
  - the legacy proxy worker (src/unnamed/part_001).

JavaScript values flowing through parsed JSON bodies are modelled by the
inductive type `JVal`; JS objects are ordered association lists so that the
override order of object literals and spreads is captured exactly.  Machine
floats are modelled by rationals; the NaN corner cases of JS numbers and the
numeric formatting of `toString` are outside the scope of the claims and are
abstracted (see the comments on `jsToString` and `JsRt.parseNum`).
-/

/-- A JSON value as produced by `await request.json()`. -/
inductive JVal where
  | null : JVal
  | bool : Bool → JVal
  | num : ℚ → JVal
  | str : String → JVal
  | arr : List JVal → JVal
  | obj : List (String × JVal) → JVal

/-- Property access `v[k]` on a parsed JSON value; `none` models `undefined`
(missing key or access on a non-object). -/
def getField : JVal → String → Option JVal
  | .obj fs, k => (fs.find? (fun p => p.1 == k)).map (·.2)
  | _, _ => none

/-- Field access defaulting to `undefined`/`null` when absent, used where the
source reads a property and immediately tests or coerces it. -/
def fieldOr (v : JVal) (k : String) : JVal :=
  (getField v k).getD .null

/-- JS truthiness of a value (NaN is not modelled; `num q` is truthy iff
`q` is nonzero, matching every non-NaN number). -/
def jsTruthy : JVal → Bool
  | .null => false
  | .bool b => b
  | .num q => q != 0
  | .str s => s != ""
  | .arr _ => true
  | .obj _ => true

/-- The JS `a || b` operator on values. -/
def jsOr (a b : JVal) : JVal :=
  if jsTruthy a then a else b

/-- JS `String(v)` / `.toString()` coercion.  The claims only exercise the
string case; number formatting and array/object stringification are
abstracted to fixed renderings. -/
def jsToString : JVal → String
  | .null => "null"
  | .bool true => "true"
  | .bool false => "false"
  | .num q => toString q
  | .str s => s
  | .arr _ => ""
  | .obj _ => "[object Object]"

/-- Whether an optional value is exactly the string `s` (JS `x === "s"`). -/
def isStr (v : Option JVal) (s : String) : Bool :=
  match v with
  | some (.str t) => t == s
  | _ => false

/-- Whether a value is JSON `null`. -/
def isNull : JVal → Bool
  | .null => true
  | _ => false

/-- Helper of `strContains`: does `pat` occur inside the character list. -/
def charsContain (pat : List Char) : List Char → Bool
  | [] => pat.isEmpty
  | c :: rest => pat.isPrefixOf (c :: rest) || charsContain pat rest

/-- Substring test, modelling JS `String.prototype.includes`. -/
def strContains (s pat : String) : Bool :=
  charsContain pat.data s.data

/-- Drops leading whitespace characters. -/
def dropWs : List Char → List Char
  | [] => []
  | c :: rest => if c.isWhitespace then dropWs rest else c :: rest

/-- JS `String.prototype.trim`: strips whitespace from both ends. -/
def jsTrim (s : String) : String :=
  ⟨(dropWs (dropWs s.data.reverse).reverse)⟩

/-- JS property assignment `o[k] = v` on a string-to-string object: the first
entry with key `k` is updated in place, otherwise the entry is appended. -/
def objSet : List (String × String) → String → String → List (String × String)
  | [], k, v => [(k, v)]
  | p :: rest, k, v => if p.1 == k then (k, v) :: rest else p :: objSet rest k v

/-- Property read on a string-to-string object. -/
def objGet : List (String × String) → String → Option String
  | [], _ => none
  | p :: rest, k => if p.1 == k then some p.2 else objGet rest k

/-- JS object spread `\x7b ...base, ...entries \x7d` restricted to string
values: each entry of `entries` is assigned onto `base` in order, so later
keys override earlier ones. -/
def objAssign (base : List (String × String)) (entries : List (String × String)) :
    List (String × String) :=
  entries.foldl (fun acc p => objSet acc p.1 p.2) base

/-- The last value bound to key `k` in an entry list (the value a JS spread
of that list would leave on the object). -/
def lastVal : List (String × String) → String → Option String
  | [], _ => none
  | p :: rest, k =>
    match lastVal rest k with
    | some v => some v
    | none => if p.1 == k then some p.2 else none

/-- Body of an HTTP response in the model. -/
inductive RespBody where
  | empty : RespBody
  | text : String → RespBody
  | json : JVal → RespBody
  | stream : RespBody

/-- An HTTP response: status, headers (ordered, later assignments override),
and body. -/
structure Response where
  status : Nat
  headers : List (String × String)
  body : RespBody

/-- An inbound HTTP request after routing-relevant parsing.  `body` is the
result of `await request.json()`: `none` models a body that is not valid
JSON, i.e. a parse that throws. -/
structure Request where
  method : String
  path : String
  origin : Option String
  contentType : Option String
  accept : String
  authorization : Option String
  urlParams : List (String × String)
  body : Option JVal

/-- Runtime primitives the embedding keeps abstract: `parseNum` models the
JS `Number(string)` coercion applied to query-string values and environment
strings. -/
structure JsRt where
  parseNum : String → ℚ

/-- JS `Number(v)` on a parsed JSON value (array/object coercion abstracted
to 0; no claim exercises it). -/
def jsToNumber (rt : JsRt) : JVal → ℚ
  | .null => 0
  | .bool true => 1
  | .bool false => 0
  | .num q => q
  | .str s => rt.parseNum s
  | .arr _ => 0
  | .obj _ => 0

/-- CORS header computation of the new worker (src/worker/src/index.ts,
getCorsHeaders). -/
def getCorsHeaders (origin : Option String) (allowedOrigins : String) :
    List (String × String) :=
  let allowed := ((allowedOrigins.splitOn ",").map String.trim).filter (fun s => s != "")
  let allowAll := allowed.contains "*"
  let allowOrigin :=
    if allowAll then "*"
    else match origin with
      | some o => if allowed.contains o then o else "null"
      | none => "null"
  [("Access-Control-Allow-Origin", allowOrigin),
   ("Access-Control-Allow-Headers", "Content-Type, Authorization, Accept"),
   ("Access-Control-Allow-Methods", "GET, POST, OPTIONS")]

/-- CORS header computation of the legacy worker (src/unnamed/part_001,
fetch lines 24-35); the Origin header is defaulted to the empty string
before the allow-list lookup. -/
def legacyCorsHeaders (origin : Option String) (allowedOrigins : String) :
    List (String × String) :=
  let orig := origin.getD ""
  let allowed := ((allowedOrigins.splitOn ",").map String.trim).filter (fun s => s != "")
  let allowAll := allowed.contains "*"
  let allowOrigin := if allowAll then "*" else if allowed.contains orig then orig else "null"
  [("Access-Control-Allow-Origin", allowOrigin),
   ("Access-Control-Allow-Methods", "GET, POST, OPTIONS"),
   ("Access-Control-Allow-Headers", "Content-Type, Authorization")]

/-- The `json` response helper of the new worker: headers are the literal
with Content-Type first, then the supplied headers spread over it. -/
def jsonR (o : JVal) (status : Nat) (headers : List (String × String)) : Response :=
  ⟨status, objAssign [("Content-Type", "application/json")] headers, .json o⟩

/-- Legacy JSON responses spread the CORS headers first and then set
Content-Type. -/
def legacyJson (o : JVal) (status : Nat) (headers : List (String × String)) : Response :=
  ⟨status, objSet headers "Content-Type" "application/json", .json o⟩

/-- parseBoolean of the new worker (src/worker/src/index.ts lines 51-55). -/
def parseBoolean (s : Option String) (defaultValue : Bool) : Bool :=
  match s with
  | none => defaultValue
  | some v => ["1", "true", "yes", "on"].contains v.toLower

/-- The bearer-token gate shared verbatim by the ingest and sync handlers of
both workers (src/worker/src/index.ts lines 179-184, src/unnamed/part_001
lines 193-198, 264-269, 344-348): when the configured token is truthy the
Authorization header must be present, truthy and equal to the literal
Bearer string; otherwise the gate is a no-op. -/
def authOk (token : Option String) (authHeader : Option String) : Bool :=
  match token with
  | none => true
  | some tok =>
    if tok == "" then true
    else match authHeader with
      | none => false
      | some h => if h == "" then false else h == "Bearer " ++ tok

/-- The parameter record sent to the retrieval backend by the new worker
(the argument of `env.AI.autorag(...).aiSearch` / `.search`). -/
structure SearchParams where
  query : String
  rewriteQuery : Bool
  maxNumResults : ℚ
  scoreThreshold : ℚ
  stream : Bool

/-- The argument record of the `aiSearch` helper (src/worker/src/index.ts
lines 57-63): `topK`, `threshold` and `rewrite` are optional. -/
structure AiSearchArgs where
  query : String
  topK : Option ℚ
  threshold : Option ℚ
  stream : Bool
  rewrite : Option Bool

/-- The default used inside `aiSearch`: `Number(env.DEFAULT_TOPK || d)` for
a possibly-unset environment string. -/
def numOrDefault (rt : JsRt) (s : Option String) (d : ℚ) : ℚ :=
  match s with
  | some v => if v == "" then d else rt.parseNum v
  | none => d

/-- Environment of the new worker (only the fields the model reads). -/
structure EnvN where
  defaultTopK : Option String
  defaultThreshold : Option String
  streamDefault : Option String
  useExternalLLM : Option String
  allowedOrigins : Option String
  ingestionToken : Option String
  docsBucket : Bool

/-- The parameter record built by `aiSearch` (src/worker/src/index.ts lines
64-71): topK is clamped into the interval from 1 to 50 and the threshold
into the interval from 0 to 1 before dispatch. -/
def aiSearchParams (rt : JsRt) (env : EnvN) (a : AiSearchArgs) : SearchParams :=
  { query := a.query
    rewriteQuery := a.rewrite.getD true
    maxNumResults := min (max (a.topK.getD (numOrDefault rt env.defaultTopK 6)) 1) 50
    scoreThreshold := max (min (a.threshold.getD (numOrDefault rt env.defaultThreshold 0.3)) 1) 0
    stream := a.stream }

/-- The canonical search invocation produced by the request normalizer of
`handleAsk`. -/
structure SearchInvocation where
  query : String
  topK : ℚ
  threshold : ℚ
  stream : Bool
  rewrite : Bool

/-- `url.searchParams.get(k)`: first value bound to the key, else null. -/
def paramGet (ps : List (String × String)) (k : String) : Option String :=
  (ps.find? (fun p => p.1 == k)).map (·.2)

/-- JS `a || b` where `a` is a nullable string and `b` a string. -/
def jsStrOr (a : Option String) (b : String) : String :=
  match a with
  | some s => if s == "" then b else s
  | none => b

/-- JS `x ?? d` followed by `Number(...)` for an optional JSON field. -/
def numFieldOr (rt : JsRt) (v : Option JVal) (d : ℚ) : ℚ :=
  match v with
  | some x => if isNull x then d else jsToNumber rt x
  | none => d

/-- JS `x?.toString()` for an optional JSON field: nullish gives undefined. -/
def optToString : Option JVal → Option String
  | some v => if isNull v then none else some (jsToString v)
  | none => none

/-- The request normalizer of `handleAsk` (src/worker/src/index.ts lines
84-106): a JSON POST reads the body fields, any other request reads the
query string; the query is trimmed in both branches. -/
def askInvocation (rt : JsRt) (env : EnvN) (req : Request) : SearchInvocation :=
  if req.method == "POST" &&
      (match req.contentType with
       | some ct => strContains ct "json"
       | none => false) then
    let body := req.body.getD (.obj [])
    { query := jsTrim (jsToString (jsOr (fieldOr body "query") (.str "")))
      topK := numFieldOr rt (getField body "topK")
        (rt.parseNum ((env.defaultTopK).getD "6"))
      threshold := numFieldOr rt (getField body "threshold")
        (rt.parseNum ((env.defaultThreshold).getD "0.30"))
      stream := parseBoolean (optToString (getField body "stream")) false
        || strContains req.accept "text/event-stream"
      rewrite := parseBoolean (optToString (getField body "rewrite")) true }
  else
    { query := jsTrim (jsStrOr (paramGet req.urlParams "q")
        (jsStrOr (paramGet req.urlParams "query") ""))
      topK := match paramGet req.urlParams "topK" with
        | some s => rt.parseNum s
        | none => rt.parseNum ((env.defaultTopK).getD "6")
      threshold := match paramGet req.urlParams "threshold" with
        | some s => rt.parseNum s
        | none => rt.parseNum ((env.defaultThreshold).getD "0.30")
      stream := parseBoolean
          (match jsStrOr (paramGet req.urlParams "stream") ((env.streamDefault).getD "") with
           | "" => none
           | s => some s) false
        || strContains req.accept "text/event-stream"
      rewrite := parseBoolean (paramGet req.urlParams "rewrite") true }

/-- The parameter record of the retrieval-only call made in the external-LLM
branch of `handleAsk` (src/worker/src/index.ts lines 126-131): topK and
threshold are passed through with no clamping. -/
def externalRetrievalParams (inv : SearchInvocation) : SearchParams :=
  { query := inv.query
    rewriteQuery := inv.rewrite
    maxNumResults := inv.topK
    scoreThreshold := inv.threshold
    stream := false }

/-- Arguments of a blob-store write (`env.DOCS_BUCKET.put`). -/
structure PutArgs where
  key : String
  content : String
  contentType : String
  metadata : List (String × String)

/-- External world of the new worker: the retrieval backend in
answer-generating and retrieval-only mode, the external LLM, the blob
store, the clock and the static-asset resolver.  Backend calls that throw
are modelled by `Except.error` carrying the exception message. -/
structure DownstreamN where
  managed : SearchParams → Except String JVal
  retrieval : SearchParams → Except String JVal
  llm : String → String → Except String String
  put : PutArgs → Except String Unit
  now : String
  asset : Response

/-- The `aiSearch` helper (src/worker/src/index.ts lines 57-77): builds the
clamped parameter record and calls the answer-generating backend. -/
def aiSearch (rt : JsRt) (env : EnvN) (ds : DownstreamN) (a : AiSearchArgs) :
    Except String JVal :=
  ds.managed (aiSearchParams rt env a)

/-- Context block built from the retrieved documents (src/worker/src/index.ts
lines 138-143). -/
def buildChunks (docs : List JVal) : String :=
  String.intercalate "\n\n" (docs.map (fun item =>
    let text := String.intercalate "\n\n"
      ((match fieldOr item "content" with
        | .arr cs => cs
        | _ => []).map (fun c =>
          match getField c "text" with
          | some t => jsToString t
          | none => ""))
    "<file name=\"" ++ jsToString (fieldOr item "filename") ++ "\">\n" ++ text ++ "\n</file>"))

/-- The fixed short-circuit body returned when retrieval finds nothing
(src/worker/src/index.ts line 134). -/
def noInfoBody (query : String) : JVal :=
  .obj [("text", .str ("No relevant information found for: \"" ++ query ++ "\"")),
        ("data", .arr [])]

/-- JS `!searchResult?.data?.length` (src/worker/src/index.ts line 133). -/
def hasDocs (sr : JVal) : Bool :=
  match getField sr "data" with
  | some (.arr xs) => !xs.isEmpty
  | some (.str s) => s != ""
  | _ => false

/-- Headers of the event-stream response of the managed branch
(src/worker/src/index.ts lines 117-120). -/
def streamHeaders (cors : List (String × String)) : List (String × String) :=
  objAssign [("Content-Type", "text/event-stream"), ("Cache-Control", "no-cache")] cors

/-- The search handler of the new worker (src/worker/src/index.ts lines
79-171).  `Except.error ()` would model an exception escaping the handler;
every fallible step of this handler is inside its try/catch or guarded by
`.catch`, so the result is always `.ok`.  The managed branch calls
`aiSearch` (clamped parameters); the external-LLM branch calls the
retrieval backend with raw parameters and short-circuits on zero
documents. -/
def handleAskNew (rt : JsRt) (env : EnvN) (ds : DownstreamN) (req : Request)
    (cors : List (String × String)) : Except Unit Response :=
  if req.method != "POST" && req.method != "GET" then
    .ok ⟨405, cors, .text "Method not allowed"⟩
  else
    let inv := askInvocation rt env req
    if inv.query == "" then
      .ok (jsonR (.obj [("error", .str "Missing 'query' parameter")]) 400 cors)
    else
      if !(jsTruthy (.str ((env.useExternalLLM).getD ""))) then
        match aiSearch rt env ds
            { query := inv.query, topK := some inv.topK, threshold := some inv.threshold,
              stream := inv.stream, rewrite := some inv.rewrite } with
        | .error m =>
          .ok (jsonR (.obj [("error", .str "Search failed"), ("details", .str m)]) 500 cors)
        | .ok result =>
          if inv.stream then .ok ⟨200, streamHeaders cors, .stream⟩
          else .ok (jsonR result 200 cors)
      else
        match ds.retrieval (externalRetrievalParams inv) with
        | .error m =>
          .ok (jsonR (.obj [("error", .str "Search failed"), ("details", .str m)]) 500 cors)
        | .ok sr =>
          if !(hasDocs sr) then
            .ok (jsonR (noInfoBody inv.query) 200 cors)
          else
            let docs := match getField sr "data" with
              | some (.arr xs) => xs
              | _ => []
            match ds.llm (buildChunks docs) inv.query with
            | .error m =>
              .ok (jsonR (.obj [("error", .str "Search failed"), ("details", .str m)]) 500 cors)
            | .ok t =>
              if strContains req.accept "text/event-stream" then
                .ok ⟨200, cors, .stream⟩
              else
                .ok (jsonR (.obj [("text", .str t), ("data", fieldOr sr "data")]) 200 cors)

/-- Key derivation of the ingestion handlers: a single leading slash is
stripped. -/
def stripLeadingSlash (s : String) : String :=
  if s.startsWith "/" then s.drop 1 else s

/-- Content-type resolution of the ingestion handlers: explicit override,
else by extension. -/
def resolveContentType (body : JVal) (key : String) : String :=
  match getField body "content_type" with
  | some v => if isNull v then
      (if key.toLower.endsWith ".html" then "text/html" else "text/markdown")
    else jsToString v
  | none => if key.toLower.endsWith ".html" then "text/html" else "text/markdown"

/-- `Object.entries(body.metadata || \x7b\x7d).map(([k, v]) => [k, String(v)])`:
the caller metadata entries with values stringified (entries of a non-object
are not modelled; no claim exercises that corner). -/
def metaEntries (body : JVal) : List (String × String) :=
  match getField body "metadata" with
  | some (.obj fs) => fs.map (fun p => (p.1, jsToString p.2))
  | _ => []

/-- The customMetadata object literal of the new worker ingestion handler
(src/worker/src/index.ts lines 205-211): the system source tag and
timestamp are written first and the caller entries are spread after them. -/
def customMetadataNew (now : String) (entries : List (String × String)) :
    List (String × String) :=
  objAssign (objSet (objSet [] "source" "api-ingestion") "timestamp" now) entries

/-- The customMetadata object literal of the legacy ingestion handler
(src/unnamed/part_001 lines 223-227), identical shape with a different
source tag. -/
def customMetadataLegacy (now : String) (entries : List (String × String)) :
    List (String × String) :=
  objAssign (objSet (objSet [] "source" "continuous-ingestion") "timestamp" now) entries

/-- The ingestion handler of the new worker (src/worker/src/index.ts lines
173-227).  The body parse `await req.json()` at line 186 sits outside the
try block that starts at line 201, so a body that is not valid JSON makes
the parse exception escape the handler: that case is `.error ()`. -/
def handleIngestionNew (env : EnvN) (ds : DownstreamN) (req : Request)
    (cors : List (String × String)) : Except Unit Response :=
  if req.method != "POST" then
    .ok ⟨405, cors, .text "Method not allowed"⟩
  else if !(authOk env.ingestionToken req.authorization) then
    .ok ⟨401, cors, .text "Unauthorized"⟩
  else
    match req.body with
    | none => .error ()
    | some body =>
      if !(jsTruthy (fieldOr body "path")) || !(jsTruthy (fieldOr body "content")) then
        .ok (jsonR (.obj [("error", .str "Path and content are required")]) 400 cors)
      else if !env.docsBucket then
        .ok (jsonR (.obj [("error", .str "R2 bucket not configured")]) 500 cors)
      else
        let key := stripLeadingSlash (jsToString (fieldOr body "path"))
        match ds.put
            { key := key, content := jsToString (fieldOr body "content"),
              contentType := resolveContentType body key,
              metadata := customMetadataNew ds.now (metaEntries body) } with
        | .error m =>
          .ok (jsonR (.obj [("error", .str "Ingestion failed"), ("details", .str m)]) 500 cors)
        | .ok _ =>
          .ok (jsonR (.obj [("success", .bool true),
                            ("message", .str "Document ingested successfully"),
                            ("path", .str key)]) 200 cors)

/-- `rpc.params || \x7b\x7d` of the tools/call branch. -/
def mcpParams (rpc : JVal) : JVal :=
  jsOr (fieldOr rpc "params") (.obj [])

/-- The `name` argument of a tools/call request. -/
def mcpToolName (rpc : JVal) : Option JVal :=
  getField (mcpParams rpc) "name"

/-- The `arguments` object of a tools/call request (`args` may be absent). -/
def mcpArgs (rpc : JVal) : Option JVal :=
  getField (mcpParams rpc) "arguments"

/-- `(args?.query || "").toString()` (src/worker/src/index.ts line 297). -/
def mcpQuery (rpc : JVal) : String :=
  match mcpArgs rpc with
  | some args => jsToString (jsOr (fieldOr args "query") (.str ""))
  | none => ""

/-- `Number(args?.x ?? d)` for the tools/call numeric arguments. -/
def mcpArgNum (rt : JsRt) (rpc : JVal) (k : String) (d : ℚ) : ℚ :=
  match mcpArgs rpc with
  | some args => numFieldOr rt (getField args k) d
  | none => d

/-- `Boolean(args?.rewrite ?? true)` (src/worker/src/index.ts line 304). -/
def mcpRewrite (rpc : JVal) : Bool :=
  match mcpArgs rpc with
  | some args =>
    match getField args "rewrite" with
    | some v => if isNull v then true else jsTruthy v
    | none => true
  | none => true

/-- The correlation id: `rpc.id ?? null`. -/
def mcpId (rpc : JVal) : JVal :=
  (getField rpc "id").getD .null

/-- The JSON-RPC error responder of the durable object (src/worker/src/index.ts
lines 248-253): always HTTP 200, the error inside the body, the id echoed. -/
def mcpError (id : JVal) (cors : List (String × String)) (code : ℚ) (message : String)
    (data : Option JVal) : Response :=
  jsonR (.obj ([("jsonrpc", .str "2.0"), ("id", id),
    ("error", .obj ([("code", .num code), ("message", .str message)] ++
      match data with
      | some d => [("data", d)]
      | none => []))])) 200 cors

/-- Result declared by tools/list (src/worker/src/index.ts lines 268-288). -/
def mcpToolsListResult : JVal :=
  .obj [("tools", .arr [
    .obj [("name", .str "ask"),
          ("description", .str "Query Obsidian documentation via AutoRAG"),
          ("inputSchema", .obj [
            ("type", .str "object"),
            ("properties", .obj [
              ("query", .obj [("type", .str "string"), ("description", .str "Search query")]),
              ("topK", .obj [("type", .str "number"),
                ("description", .str "Number of results (default: 6)")]),
              ("threshold", .obj [("type", .str "number"),
                ("description", .str "Score threshold 0-1 (default: 0.3)")]),
              ("rewrite", .obj [("type", .str "boolean"),
                ("description", .str "Rewrite query for better results (default: true)")])]),
            ("required", .arr [.str "query"])])]])]

/-- The fetch method of the MCP durable object (src/worker/src/index.ts lines
233-323).  The body parse uses `.catch(() => (\x7b\x7d))`, the dispatch sits in a
try/catch mapping any exception to JSON-RPC error -32000, so the function is
total: no exception escapes and every POST is answered with HTTP 200. -/
def mcpFetch (rt : JsRt) (env : EnvN) (ds : DownstreamN) (req : Request) : Response :=
  let cors := getCorsHeaders req.origin ((env.allowedOrigins).getD "*")
  if req.method == "OPTIONS" then ⟨204, cors, .empty⟩
  else if req.method != "POST" then ⟨405, cors, .text "Method Not Allowed"⟩
  else
    let rpc := req.body.getD (.obj [])
    let id := mcpId rpc
    let m := getField rpc "method"
    if isStr m "initialize" then
      jsonR (.obj [("jsonrpc", .str "2.0"), ("id", id),
        ("result", .obj [("protocolVersion", .str "2025-06-18"),
          ("serverInfo", .obj [("name", .str "obsidian-docs-autorag"),
                               ("version", .str "2.0.0")]),
          ("capabilities", .obj [("tools", .obj [])])])]) 200 cors
    else if isStr m "tools/list" then
      jsonR (.obj [("jsonrpc", .str "2.0"), ("id", id),
        ("result", mcpToolsListResult)]) 200 cors
    else if isStr m "tools/call" then
      if !(isStr (mcpToolName rpc) "ask") then
        mcpError id cors (-32601)
          ("Unknown tool: " ++ (match mcpToolName rpc with
            | some v => jsToString v
            | none => "undefined")) none
      else if mcpQuery rpc == "" then
        mcpError id cors (-32602) "Missing 'query' parameter" none
      else
        match aiSearch rt env ds
            { query := mcpQuery rpc,
              topK := some (mcpArgNum rt rpc "topK" 6),
              threshold := some (mcpArgNum rt rpc "threshold" 0.3),
              stream := false,
              rewrite := some (mcpRewrite rpc) } with
        | .error m =>
          mcpError id cors (-32000) "Server error" (some (.obj [("message", .str m)]))
        | .ok result =>
          jsonR (.obj [("jsonrpc", .str "2.0"), ("id", id), ("result", result)]) 200 cors
    else
      mcpError id cors (-32601)
        ("Method not found: " ++ (match m with
          | some v => jsToString v
          | none => "undefined")) none

/-- The status body of the new worker (src/worker/src/index.ts lines 356-364);
the RAG name is not tracked by the model and is abstracted to a fixed
string. -/
def statusBodyNew (env : EnvN) (now : String) : JVal :=
  .obj [("operational", .bool true),
        ("autorag_name", .str "obsidian-docs"),
        ("ai_binding_available", .bool true),
        ("ingestion_enabled", .bool (jsTruthy (.str ((env.ingestionToken).getD "")))),
        ("external_llm", .str (jsStrOr env.useExternalLLM "none")),
        ("timestamp", .str now)]

/-- The top-level fetch of the new worker (src/worker/src/index.ts lines
326-377).  It has no try/catch: an `.error` result of a routed handler
escapes the worker (an unhandled exception).  OPTIONS short-circuits with a
204 before any routing. -/
def newFetch (rt : JsRt) (env : EnvN) (ds : DownstreamN) (req : Request) :
    Except Unit Response :=
  let cors := getCorsHeaders req.origin ((env.allowedOrigins).getD "*")
  if req.method == "OPTIONS" then .ok ⟨204, cors, .empty⟩
  else if req.path == "/ask" then handleAskNew rt env ds req cors
  else if req.path == "/mcp" then .ok (mcpFetch rt env ds req)
  else if req.path == "/api/ingest" then handleIngestionNew env ds req cors
  else if req.path == "/api/autorag-search" then handleAskNew rt env ds req cors
  else if req.path == "/api/status" then .ok (jsonR (statusBodyNew env ds.now) 200 cors)
  else if ds.asset.status == 404 then .ok ⟨404, cors, .text "Not Found"⟩
  else .ok ds.asset

/-- Environment of the legacy worker; the configuration strings are falsy
when empty. -/
structure EnvL where
  accountId : String
  autoragName : String
  apiToken : String
  ingestionToken : Option String
  allowedOrigins : Option String
  allowedRenderHosts : Option String
  browserBinding : Bool

/-- Outcome of one upstream `fetch` call: a response with status, text body
and parsed JSON body, or a network-level exception carrying a message.  A
2xx body that fails to parse as JSON is not modelled separately (no claim
exercises it). -/
inductive Upstream where
  | response : Nat → String → JVal → Upstream
  | netFail : String → Upstream

/-- `response.ok`: status in the 2xx range. -/
def upstreamOk (s : Nat) : Bool :=
  200 ≤ s && s ≤ 299

/-- JS `x !== false` on a JSON field. -/
def isFieldFalse (body : JVal) (k : String) : Bool :=
  match getField body k with
  | some (.bool false) => true
  | _ => false

/-- The parameter object built for the Workers-AI binding call of the legacy
search handler (src/unnamed/part_001 lines 111-119): `max_num_results`
defaults to 5 on a falsy field, `ranking_options` is passed through whole
when truthy, and nothing is clamped. -/
structure LegacyParams where
  query : JVal
  maxNumResults : JVal
  rewriteQuery : Bool
  rankingOptions : JVal
  modelField : Option JVal
  filters : Option JVal
  streamField : Option JVal

/-- Conditional spread `...(body.k && \x7b k: body.k \x7d)`: the key is present
only when the field is truthy. -/
def truthyField (body : JVal) (k : String) : Option JVal :=
  let v := fieldOr body k
  if jsTruthy v then some v else none

/-- Builds the binding-call parameters of the legacy search handler. -/
def legacySearchParams (body : JVal) : LegacyParams :=
  { query := fieldOr body "query"
    maxNumResults := jsOr (fieldOr body "max_num_results") (.num 5)
    rewriteQuery := !(isFieldFalse body "rewrite_query")
    rankingOptions := jsOr (fieldOr body "ranking_options")
      (.obj [("score_threshold", .num 0.3)])
    modelField := truthyField body "model"
    filters := truthyField body "filters"
    streamField := truthyField body "stream" }

/-- External world of the legacy worker.  `binding` is the optional
Workers-AI binding: its Bool argument is the aiSearch/search selector.
`rest` is the REST fallback search call, `syncUp` the sync endpoint,
`statusUp` the status detail fetch, `render` the headless-browser step. -/
structure DownstreamL where
  binding : Option (Bool → LegacyParams → Except String JVal)
  rest : Upstream
  put : PutArgs → Except String Unit
  syncUp : Upstream
  statusUp : Upstream
  render : String → Except String String
  now : String

/-- The legacy search handler (src/unnamed/part_001 lines 80-182).  The body
parse at line 85 is before the try block, so a body that is not valid JSON
escapes the handler (`.error ()`) to the fetch-level catch.  The query check
is `!body.query` with no trimming. -/
def handleSearchLegacy (env : EnvL) (ds : DownstreamL) (req : Request)
    (hdrs : List (String × String)) : Except Unit Response :=
  if req.method != "POST" then
    .ok ⟨405, hdrs, .text "Method not allowed"⟩
  else
    match req.body with
    | none => .error ()
    | some body =>
      if !(jsTruthy (fieldOr body "query")) then
        .ok (legacyJson (.obj [("error", .str "Query is required")]) 400 hdrs)
      else
        let useAiSearch := !(isFieldFalse body "use_ai_search")
        match ds.binding with
        | some call =>
          match call useAiSearch (legacySearchParams body) with
          | .error m =>
            .ok (legacyJson (.obj [("error", .str "Search failed"),
                                   ("details", .str m)]) 500 hdrs)
          | .ok result => .ok (legacyJson result 200 hdrs)
        | none =>
          match ds.rest with
          | .netFail m =>
            .ok (legacyJson (.obj [("error", .str "Search failed"),
                                   ("details", .str m)]) 500 hdrs)
          | .response s t j =>
            if !(upstreamOk s) then
              .ok (legacyJson (.obj [("error", .str "Search failed"),
                ("details", .str ("API error: " ++ toString s ++ " - " ++ t))]) 500 hdrs)
            else if jsTruthy (fieldOr body "stream") then
              .ok ⟨200, objAssign hdrs [("Content-Type", "text/event-stream"),
                                        ("Cache-Control", "no-cache")], .stream⟩
            else
              let responseData :=
                if jsTruthy (fieldOr j "success") && jsTruthy (fieldOr j "result") then
                  fieldOr j "result"
                else j
              .ok (legacyJson responseData 200 hdrs)

/-- The sync trigger (src/unnamed/part_001 lines 423-462).  It returns a
plain value in every case: missing configuration gives a Skipped object,
HTTP 429 and 409 give the cooldown Skipped object, any other non-2xx
response is thrown and caught into a Failed object carrying the upstream
status and text, a network exception is caught into a Failed object
carrying its message, and a 2xx response returns its JSON body. -/
def triggerAutoRAGSync (env : EnvL) (up : Upstream) : JVal :=
  if env.accountId == "" || env.apiToken == "" || env.autoragName == "" then
    .obj [("skipped", .bool true), ("reason", .str "Not configured")]
  else
    match up with
    | .netFail m => .obj [("error", .bool true), ("message", .str m)]
    | .response s t j =>
      if !(upstreamOk s) then
        if s == 429 || s == 409 then
          .obj [("skipped", .bool true),
                ("reason", .str "Sync is on cooldown (3-minute minimum between syncs)")]
        else
          .obj [("error", .bool true),
                ("message", .str ("Sync API error: " ++ toString s ++ " - " ++ t))]
      else j

/-- The legacy ingestion handler (src/unnamed/part_001 lines 187-253): like
the new one its body parse (line 200) is outside the try block, so invalid
JSON escapes to the fetch-level catch; after a successful put it calls the
sync trigger and embeds the outcome in a success response. -/
def handleIngestionLegacy (env : EnvL) (ds : DownstreamL) (req : Request)
    (hdrs : List (String × String)) : Except Unit Response :=
  if req.method != "POST" then
    .ok ⟨405, hdrs, .text "Method not allowed"⟩
  else if !(authOk env.ingestionToken req.authorization) then
    .ok ⟨401, hdrs, .text "Unauthorized"⟩
  else
    match req.body with
    | none => .error ()
    | some body =>
      if !(jsTruthy (fieldOr body "path")) || !(jsTruthy (fieldOr body "content")) then
        .ok (legacyJson (.obj [("error", .str "Path and content are required")]) 400 hdrs)
      else
        let key := stripLeadingSlash (jsToString (fieldOr body "path"))
        match ds.put
            { key := key, content := jsToString (fieldOr body "content"),
              contentType := resolveContentType body key,
              metadata := customMetadataLegacy ds.now (metaEntries body) } with
        | .error m =>
          .ok (legacyJson (.obj [("error", .str "Ingestion failed"),
                                 ("details", .str m)]) 500 hdrs)
        | .ok _ =>
          .ok (legacyJson (.obj [("success", .bool true),
                ("message", .str "Document ingested successfully"),
                ("path", .str key),
                ("sync", triggerAutoRAGSync env ds.syncUp)]) 200 hdrs)

/-- The manual sync handler (src/unnamed/part_001 lines 338-369). -/
def handleSyncLegacy (env : EnvL) (ds : DownstreamL) (req : Request)
    (hdrs : List (String × String)) : Except Unit Response :=
  if req.method != "POST" then
    .ok ⟨405, hdrs, .text "Method not allowed"⟩
  else if !(authOk env.ingestionToken req.authorization) then
    .ok ⟨401, hdrs, .text "Unauthorized"⟩
  else
    .ok (legacyJson (.obj [("success", .bool true),
          ("message", .str "Sync triggered successfully"),
          ("response", triggerAutoRAGSync env ds.syncUp)]) 200 hdrs)

/-- The render-and-ingest handler (src/unnamed/part_001 lines 258-333),
modelled coarsely: its browser automation is abstracted into `ds.render`;
its body parse is guarded by its own try/catch and yields a 400.  No claim
targets this handler beyond the fetch-level routing. -/
def handleRenderIngestLegacy (env : EnvL) (ds : DownstreamL) (req : Request)
    (hdrs : List (String × String)) : Except Unit Response :=
  if req.method != "POST" then
    .ok ⟨405, hdrs, .text "Method not allowed"⟩
  else if !(authOk env.ingestionToken req.authorization) then
    .ok ⟨401, hdrs, .text "Unauthorized"⟩
  else if !env.browserBinding then
    .ok (legacyJson (.obj [("error", .str "Browser binding not configured")]) 500 hdrs)
  else
    match req.body with
    | none => .ok ⟨400, hdrs, .text "Invalid JSON"⟩
    | some body =>
      if !(jsTruthy (fieldOr body "url")) then
        .ok ⟨400, hdrs, .text "Missing url"⟩
      else
        match ds.render (jsToString (fieldOr body "url")) with
        | .error m =>
          .ok (legacyJson (.obj [("error", .str "Render-ingest failed"),
                                 ("details", .str m)]) 500 hdrs)
        | .ok key =>
          .ok (legacyJson (.obj [("success", .bool true), ("key", .str key),
                ("sync", triggerAutoRAGSync env ds.syncUp)]) 200 hdrs)

/-- The status handler (src/unnamed/part_001 lines 374-418), with the
best-effort upstream detail fetch. -/
def handleStatusLegacy (env : EnvL) (ds : DownstreamL)
    (hdrs : List (String × String)) : Except Unit Response :=
  let base : List (String × JVal) :=
    [("autorag_name", .str env.autoragName),
     ("operational", .bool true),
     ("last_check", .str ds.now),
     ("api_configured", .bool (env.apiToken != "")),
     ("ai_binding_available", .bool false),
     ("ingestion_enabled", .bool (jsTruthy (.str ((env.ingestionToken).getD ""))))]
  if env.apiToken != "" && env.accountId != "" then
    match ds.statusUp with
    | .response s _ j =>
      if upstreamOk s then
        .ok (legacyJson (.obj (base ++ [("autorag_details", fieldOr j "result")])) 200 hdrs)
      else .ok (legacyJson (.obj base) 200 hdrs)
    | .netFail _ => .ok (legacyJson (.obj base) 200 hdrs)
  else .ok (legacyJson (.obj base) 200 hdrs)

/-- The top-level fetch of the legacy worker (src/unnamed/part_001 lines
19-74).  OPTIONS short-circuits with `new Response(null, ...)` whose status
defaults to 200; every other route runs inside a try/catch that converts an
escaped exception into a 500 JSON body. -/
def legacyFetch (env : EnvL) (ds : DownstreamL) (req : Request) : Response :=
  let hdrs := legacyCorsHeaders req.origin ((env.allowedOrigins).getD "*")
  if req.method == "OPTIONS" then ⟨200, hdrs, .empty⟩
  else
    let routed : Except Unit Response :=
      if req.path == "/api/autorag-search" then handleSearchLegacy env ds req hdrs
      else if req.path == "/api/ingest" then handleIngestionLegacy env ds req hdrs
      else if req.path == "/api/render-ingest" then handleRenderIngestLegacy env ds req hdrs
      else if req.path == "/api/sync" then handleSyncLegacy env ds req hdrs
      else if req.path == "/api/status" then handleStatusLegacy env ds hdrs
      else .ok ⟨404, hdrs, .text "Not Found"⟩
    match routed with
    | .ok r => r
    | .error _ =>
      ⟨500, objAssign hdrs [("Content-Type", "application/json")],
       .json (.obj [("error", .str "Internal Server Error")])⟩

/-- Reads the echoed JSON-RPC id from a response body. -/
def rpcId (r : Response) : Option JVal :=
  match r.body with
  | .json j => getField j "id"
  | _ => none

/-- Reads the JSON-RPC error code from a response body. -/
def rpcErrCode (r : Response) : Option ℚ :=
  match r.body with
  | .json j =>
    match getField j "error" with
    | some e =>
      match getField e "code" with
      | some (.num q) => some q
      | _ => none
    | _ => none
  | _ => none

/-- Reads the message field of the JSON-RPC error data object. -/
def rpcErrData (r : Response) : Option JVal :=
  match r.body with
  | .json j =>
    match getField j "error" with
    | some e =>
      match getField e "data" with
      | some d => getField d "message"
      | none => none
    | _ => none
  | _ => none

/-- Concrete runtime for witnesses: string-to-number coercion fixed at 0. -/
def rtW : JsRt := ⟨fun _ => 0⟩

/-- Concrete new-worker environment: nothing configured, bucket present. -/
def envNW : EnvN :=
  { defaultTopK := none, defaultThreshold := none, streamDefault := none,
    useExternalLLM := none, allowedOrigins := none, ingestionToken := none,
    docsBucket := true }

/-- New-worker environment with the external LLM selected. -/
def envNExtW : EnvN := { envNW with useExternalLLM := some "openai" }

/-- Concrete downstream world for the new worker: every backend call
succeeds trivially. -/
def dsNW : DownstreamN :=
  { managed := fun _ => .ok .null,
    retrieval := fun _ => .ok (.obj [("data", .arr [])]),
    llm := fun _ _ => .ok "",
    put := fun _ => .ok (),
    now := "2025-01-01T00:00:00.000Z",
    asset := ⟨200, [], .empty⟩ }

/-- Downstream world whose answer-generating backend always throws. -/
def dsNErrW : DownstreamN := { dsNW with managed := fun _ => .error "backend down" }

/-- Concrete legacy environment: sync fully configured, no auth token. -/
def envLW : EnvL :=
  { accountId := "acct", autoragName := "rag", apiToken := "tok",
    ingestionToken := none, allowedOrigins := none, allowedRenderHosts := none,
    browserBinding := false }

/-- Concrete downstream world for the legacy worker with no AI binding. -/
def dsLW : DownstreamL :=
  { binding := none, rest := .netFail "net", put := fun _ => .ok (),
    syncUp := .netFail "net", statusUp := .netFail "net",
    render := fun _ => .error "no browser", now := "2025-01-01T00:00:00.000Z" }

/-- Legacy downstream world with an AI binding that returns null. -/
def dsLBindW : DownstreamL := { dsLW with binding := some (fun _ _ => .ok .null) }

/-- Concrete malformed-JSON ingest request (body fails to parse). -/
def reqIngestBadJson : Request :=
  ⟨"POST", "/api/ingest", none, some "application/json", "", none, [], none⟩

/-- New-worker environment with an ingestion token configured. -/
def envNTokW : EnvN := { envNW with ingestionToken := some "sek" }

/-- Legacy environment with an ingestion token configured. -/
def envLTokW : EnvL := { envLW with ingestionToken := some "sek" }

/-- Concrete JSON ask request whose query is whitespace only. -/
def reqAskWsW : Request :=
  ⟨"POST", "/ask", none, some "application/json", "", none, [],
   some (.obj [("query", .str "   "), ("topK", .num 3)])⟩

/-- Concrete JSON ask request with the query hello. -/
def reqAskHelloW : Request :=
  ⟨"POST", "/ask", none, some "application/json", "", none, [],
   some (.obj [("query", .str "hello")])⟩

/-- Concrete tools/call request with an unknown tool name. -/
def reqMcpBadToolW : Request :=
  ⟨"POST", "/mcp", none, some "application/json", "", none, [],
   some (.obj [("jsonrpc", .str "2.0"), ("id", .str "req-7"),
     ("method", .str "tools/call"),
     ("params", .obj [("name", .str "nope")])])⟩

/-- Concrete valid ingest body. -/
def bIngestW : JVal :=
  .obj [("path", .str "/guide/intro.md"), ("content", .str "hello docs")]

/-- Reading a key after a JS property assignment sees the new value at that
key and the old object elsewhere. -/
theorem objGet_objSet (o : List (String × String)) (k k' v : String) :
    objGet (objSet o k v) k' = if k == k' then some v else objGet o k' := by
  induction o with
  | nil => rfl
  | cons p rest ih =>
    by_cases hpk : p.1 = k
    · by_cases hkk : k = k' <;>
        simp [objGet, objSet, hpk, hkk]
    · by_cases hpk' : p.1 = k'
      · have hkk : ¬ k = k' := fun h => hpk (by rw [hpk', h])
        have hkk' : ¬ k' = k := fun h => hkk h.symm
        simp [objGet, objSet, hpk, hpk', hkk, hkk', ih]
      · simp [objGet, objSet, hpk, hpk', ih]

/-- Reading a key after a JS spread sees the last value the spread entries
bind to that key, else the base object. -/
theorem objGet_objAssign (entries : List (String × String)) :
    ∀ (base : List (String × String)) (k : String),
      objGet (objAssign base entries) k = (lastVal entries k).elim (objGet base k) some := by
  induction entries with
  | nil => intro base k; simp [objAssign, lastVal]
  | cons p rest ih =>
    intro base k
    have h1 : objAssign base (p :: rest) = objAssign (objSet base p.1 p.2) rest := rfl
    rw [h1, ih (objSet base p.1 p.2) k]
    cases hR : lastVal rest k with
    | some v => simp [lastVal, hR]
    | none =>
      by_cases hpk : p.1 = k <;>
        simp [lastVal, hR, objGet_objSet, hpk]

/-- Claim C1, counterexample: the claim says topK and threshold are clamped
in every backend path, but the retrieval-only call of the external-LLM mode
(src/worker/src/index.ts lines 126-131) dispatches topK 999 and threshold 2
unchanged, outside the claimed ranges. -/
theorem claim_C1_counterexample :
    (externalRetrievalParams
      { query := "q", topK := 999, threshold := 2, stream := false,
        rewrite := true }).maxNumResults = 999 ∧
    ¬ ((999 : ℚ) ≤ 50) ∧
    (externalRetrievalParams
      { query := "q", topK := 999, threshold := 2, stream := false,
        rewrite := true }).scoreThreshold = 2 ∧
    ¬ ((2 : ℚ) ≤ 1) := by
  refine ⟨rfl, by norm_num, rfl, by norm_num⟩

/-- Claim C1 as amended: the aiSearch helper clamps topK into the interval
from 1 to 50 and the threshold into the interval from 0 to 1 for every
input, which covers the managed answer-generating mode and the tool-protocol
path; the retrieval-only external-LLM call and the legacy worker search
handler pass the caller values through unclamped. -/
theorem claim_C1_amended :
    (∀ (rt : JsRt) (env : EnvN) (a : AiSearchArgs),
      1 ≤ (aiSearchParams rt env a).maxNumResults ∧
      (aiSearchParams rt env a).maxNumResults ≤ 50 ∧
      0 ≤ (aiSearchParams rt env a).scoreThreshold ∧
      (aiSearchParams rt env a).scoreThreshold ≤ 1) ∧
    (∀ inv : SearchInvocation,
      (externalRetrievalParams inv).maxNumResults = inv.topK ∧
      (externalRetrievalParams inv).scoreThreshold = inv.threshold) ∧
    (∀ (body : JVal) (q : ℚ),
      getField body "max_num_results" = some (.num q) → q ≠ 0 →
      (legacySearchParams body).maxNumResults = .num q) ∧
    (∀ (body r : JVal),
      getField body "ranking_options" = some r → jsTruthy r = true →
      (legacySearchParams body).rankingOptions = r) := by
  refine ⟨?_, ?_, ?_, ?_⟩
  · intro rt env a
    refine ⟨le_min (le_max_right _ _) (by norm_num), min_le_right _ _,
      le_max_right _ _, max_le (min_le_right _ _) (by norm_num)⟩
  · intro inv; exact ⟨rfl, rfl⟩
  · intro body q h hq
    simp [legacySearchParams, fieldOr, h, jsOr, jsTruthy, hq]
  · intro body r h hr
    simp [legacySearchParams, fieldOr, h, jsOr, hr]

/-- Claim C1 amended, witness: concrete clamp of topK 0 in the aiSearch path
and concrete unclamped passthrough of 999 in the legacy handler. -/
theorem claim_C1_witness :
    (1 ≤ (aiSearchParams rtW envNW
      { query := "q", topK := some 0, threshold := some 5, stream := false,
        rewrite := none }).maxNumResults) ∧
    (legacySearchParams (.obj [("max_num_results", .num 999)])).maxNumResults =
      .num 999 := by
  exact ⟨(claim_C1_amended.1 rtW envNW _).1,
    claim_C1_amended.2.2.1 _ 999 rfl (by norm_num)⟩

/-- Claim C2, counterexample: a caller-supplied metadata key named source
overrides the system source tag, because the caller entries are spread after
the system fields in the object literal (src/worker/src/index.ts lines
205-211). -/
theorem claim_C2_counterexample :
    objGet (customMetadataNew "2025-01-01T00:00:00.000Z"
      [("source", "caller-tag")]) "source" = some "caller-tag" ∧
    some "caller-tag" ≠ some "api-ingestion" := by
  exact ⟨rfl, by decide⟩

/-- Claim C2 as amended: on a key conflict the caller-supplied metadata
value wins; the system source tag and timestamp are stored only for keys the
caller does not supply.  Holds for both workers. -/
theorem claim_C2_amended :
    ∀ (now : String) (entries : List (String × String)),
      objGet (customMetadataNew now entries) "source" =
        (lastVal entries "source").elim (some "api-ingestion") some ∧
      objGet (customMetadataNew now entries) "timestamp" =
        (lastVal entries "timestamp").elim (some now) some ∧
      objGet (customMetadataLegacy now entries) "source" =
        (lastVal entries "source").elim (some "continuous-ingestion") some ∧
      objGet (customMetadataLegacy now entries) "timestamp" =
        (lastVal entries "timestamp").elim (some now) some := by
  intro now entries
  refine ⟨?_, ?_, ?_, ?_⟩ <;>
    first
      | (rw [customMetadataNew, objGet_objAssign]; rfl)
      | (rw [customMetadataLegacy, objGet_objAssign]; rfl)

/-- Claim C3: the code contradicts the stated propagation policy.  A POST to
/api/ingest on the new worker whose body is not valid JSON makes the parse
exception escape the handler (the parse at src/worker/src/index.ts line 186
is outside the try block and the router has no catch), while the legacy
worker converts the same failure into a 500 JSON body at its fetch-level
catch. -/
theorem claim_C3_code_bug :
    newFetch rtW envNW dsNW reqIngestBadJson = .error () ∧
    (legacyFetch envLW dsLW reqIngestBadJson).status = 500 ∧
    (legacyFetch envLW dsLW reqIngestBadJson).body =
      .json (.obj [("error", .str "Internal Server Error")]) := by
  exact ⟨rfl, rfl, rfl⟩

/-- Claim C9, counterexample: an OPTIONS request to the legacy worker is
answered with the default status 200, not 204, because the preflight branch
(src/unnamed/part_001 lines 38-40) builds its Response without a status. -/
theorem claim_C9_counterexample :
    (legacyFetch envLW dsLW
      ⟨"OPTIONS", "/api/ingest", none, none, "", none, [], none⟩).status = 200 ∧
    (200 : Nat) ≠ 204 := by
  exact ⟨rfl, by decide⟩

/-- Claim C9 as amended: an OPTIONS request short-circuits in both workers
with no body, the computed CORS headers and no downstream call (the result
does not depend on any downstream world); the status is 204 in the new
worker but 200 in the legacy worker. -/
theorem claim_C9_amended :
    ∀ (rt rt' : JsRt) (envN : EnvN) (dsN dsN' : DownstreamN) (envL : EnvL)
      (dsL dsL' : DownstreamL) (p : String) (o : Option String)
      (ct : Option String) (acc : String) (au : Option String)
      (ps : List (String × String)) (bo : Option JVal),
      newFetch rt envN dsN ⟨"OPTIONS", p, o, ct, acc, au, ps, bo⟩ =
        .ok ⟨204, getCorsHeaders o ((envN.allowedOrigins).getD "*"), .empty⟩ ∧
      newFetch rt envN dsN ⟨"OPTIONS", p, o, ct, acc, au, ps, bo⟩ =
        newFetch rt' envN dsN' ⟨"OPTIONS", p, o, ct, acc, au, ps, bo⟩ ∧
      legacyFetch envL dsL ⟨"OPTIONS", p, o, ct, acc, au, ps, bo⟩ =
        ⟨200, legacyCorsHeaders o ((envL.allowedOrigins).getD "*"), .empty⟩ ∧
      legacyFetch envL dsL ⟨"OPTIONS", p, o, ct, acc, au, ps, bo⟩ =
        legacyFetch envL dsL' ⟨"OPTIONS", p, o, ct, acc, au, ps, bo⟩ := by
  intro rt rt' envN dsN dsN' envL dsL dsL' p o ct acc au ps bo
  exact ⟨rfl, rfl, rfl, rfl⟩

/-- Claim C10: every POST to the tool-protocol endpoint is answered with
HTTP status 200, whatever the body (malformed JSON included), method name,
tool name, or dispatch outcome; protocol failures appear only inside the
JSON-RPC error object. -/
theorem claim_C10_theorem :
    ∀ (rt : JsRt) (env : EnvN) (ds : DownstreamN) (p : String) (o : Option String)
      (ct : Option String) (acc : String) (au : Option String)
      (ps : List (String × String)) (bo : Option JVal),
      (mcpFetch rt env ds ⟨"POST", p, o, ct, acc, au, ps, bo⟩).status = 200 := by
  intro rt env ds p o ct acc au ps bo
  simp only [mcpFetch]
  repeat' split
  all_goals first | rfl | (rename_i hImp; exact absurd hImp (by decide))

/-- Claim C7: in external-LLM mode, a retrieval result with zero documents
short-circuits to the no-relevant-information answer with an empty source
list, and the external LLM is not invoked (the result is unchanged under
any replacement of the LLM downstream). -/
theorem claim_C7_theorem :
    ∀ (rt : JsRt) (env : EnvN) (ds : DownstreamN) (req : Request)
      (cors : List (String × String)) (sr : JVal),
      (req.method != "POST" && req.method != "GET") = false →
      jsTruthy (.str ((env.useExternalLLM).getD "")) = true →
      (askInvocation rt env req).query ≠ "" →
      ds.retrieval (externalRetrievalParams (askInvocation rt env req)) = .ok sr →
      getField sr "data" = some (.arr []) →
      (handleAskNew rt env ds req cors =
        .ok (jsonR (noInfoBody (askInvocation rt env req).query) 200 cors)) ∧
      (∀ llm2, handleAskNew rt env { ds with llm := llm2 } req cors =
        .ok (jsonR (noInfoBody (askInvocation rt env req).query) 200 cors)) := by
  intro rt env ds req cors sr hm hext hq hret hdata
  have hDocs : hasDocs sr = false := by simp [hasDocs, hdata]
  constructor
  · simp [handleAskNew, hm, hext, hq, hret, hDocs]
  · intro llm2
    simp [handleAskNew, hm, hext, hq, hret, hDocs]

/-- Claim C7, witness: a concrete external-LLM search for hello whose
retrieval returns an empty document list yields the fixed answer. -/
theorem claim_C7_witness :
    handleAskNew rtW envNExtW dsNW reqAskHelloW [] =
      .ok (jsonR (noInfoBody "hello") 200 []) := by
  exact (claim_C7_theorem rtW envNExtW dsNW reqAskHelloW [] (.obj [("data", .arr [])])
    rfl (by decide) (by decide) rfl rfl).1

/-- The gate fails on a missing header, an empty header, a wrong scheme or a
mismatched token alike when a token is configured. -/
theorem authOk_false (tok : String) (au : Option String) (htok : tok ≠ "")
    (hau : au = none ∨ ∃ s, au = some s ∧ s ≠ "Bearer " ++ tok) :
    authOk (some tok) au = false := by
  rcases hau with h | ⟨s, hs, hne⟩
  · simp [authOk, h, htok]
  · by_cases hse : s = "" <;> simp [authOk, hs, htok, hse, hne]

/-- Claim C8: with a configured secret, a missing Authorization header, a
wrong scheme and a mismatched token all produce the one identical
Unauthorized 401 response, on the ingest handlers of both workers and on
the legacy sync handler; with no secret configured the gate passes every
request, and the ingest response does not depend on the Authorization
header at all. -/
theorem claim_C8_theorem :
    ∀ (tok : String), tok ≠ "" →
      (authOk (some tok) none = false) ∧
      (∀ h, h ≠ "Bearer " ++ tok → authOk (some tok) (some h) = false) ∧
      (∀ a, authOk none a = true) ∧
      (∀ (env : EnvN) (ds : DownstreamN) (p : String) (o : Option String)
         (ct : Option String) (acc : String) (au : Option String)
         (ps : List (String × String)) (bo : Option JVal)
         (cors : List (String × String)),
         env.ingestionToken = some tok →
         (au = none ∨ ∃ s, au = some s ∧ s ≠ "Bearer " ++ tok) →
         handleIngestionNew env ds ⟨"POST", p, o, ct, acc, au, ps, bo⟩ cors =
           .ok ⟨401, cors, .text "Unauthorized"⟩) ∧
      (∀ (env : EnvL) (ds : DownstreamL) (p : String) (o : Option String)
         (ct : Option String) (acc : String) (au : Option String)
         (ps : List (String × String)) (bo : Option JVal)
         (hdrs : List (String × String)),
         env.ingestionToken = some tok →
         (au = none ∨ ∃ s, au = some s ∧ s ≠ "Bearer " ++ tok) →
         handleIngestionLegacy env ds ⟨"POST", p, o, ct, acc, au, ps, bo⟩ hdrs =
           .ok ⟨401, hdrs, .text "Unauthorized"⟩) ∧
      (∀ (env : EnvL) (ds : DownstreamL) (p : String) (o : Option String)
         (ct : Option String) (acc : String) (au : Option String)
         (ps : List (String × String)) (bo : Option JVal)
         (hdrs : List (String × String)),
         env.ingestionToken = some tok →
         (au = none ∨ ∃ s, au = some s ∧ s ≠ "Bearer " ++ tok) →
         handleSyncLegacy env ds ⟨"POST", p, o, ct, acc, au, ps, bo⟩ hdrs =
           .ok ⟨401, hdrs, .text "Unauthorized"⟩) ∧
      (∀ (env : EnvN) (ds : DownstreamN) (p : String) (o : Option String)
         (ct : Option String) (acc : String) (a a2 : Option String)
         (ps : List (String × String)) (bo : Option JVal)
         (cors : List (String × String)),
         env.ingestionToken = none →
         handleIngestionNew env ds ⟨"POST", p, o, ct, acc, a, ps, bo⟩ cors =
           handleIngestionNew env ds ⟨"POST", p, o, ct, acc, a2, ps, bo⟩ cors) := by
  intro tok htok
  refine ⟨?_, ?_, ?_, ?_, ?_, ?_, ?_⟩
  · exact authOk_false tok none htok (Or.inl rfl)
  · intro h hne; exact authOk_false tok (some h) htok (Or.inr ⟨h, rfl, hne⟩)
  · intro a; rfl
  · intro env ds p o ct acc au ps bo cors henv hau
    simp [handleIngestionNew, henv, authOk_false tok au htok hau]
  · intro env ds p o ct acc au ps bo hdrs henv hau
    simp [handleIngestionLegacy, henv, authOk_false tok au htok hau]
  · intro env ds p o ct acc au ps bo hdrs henv hau
    simp [handleSyncLegacy, henv, authOk_false tok au htok hau]
  · intro env ds p o ct acc a a2 ps bo cors henv
    simp [handleIngestionNew, henv, authOk]

/-- Claim C8, witness: with the token sek configured, a missing header, a
wrong-scheme header and a mismatched bearer all give the identical 401 on
the new worker, and with no token configured the response is independent of
the header. -/
theorem claim_C8_witness :
    authOk (some "sek") none = false ∧
    handleIngestionNew envNTokW dsNW
      ⟨"POST", "/api/ingest", none, none, "", some "Basic abc", [], some bIngestW⟩ [] =
      .ok ⟨401, [], .text "Unauthorized"⟩ ∧
    handleIngestionNew envNTokW dsNW
      ⟨"POST", "/api/ingest", none, none, "", some "Bearer wrong", [], some bIngestW⟩ [] =
      .ok ⟨401, [], .text "Unauthorized"⟩ ∧
    handleIngestionNew envNW dsNW
      ⟨"POST", "/api/ingest", none, none, "", some "anything", [], some bIngestW⟩ [] =
      handleIngestionNew envNW dsNW
      ⟨"POST", "/api/ingest", none, none, "", none, [], some bIngestW⟩ [] := by
  have h := claim_C8_theorem "sek" (by decide)
  exact ⟨h.1,
    h.2.2.2.1 envNTokW dsNW "/api/ingest" none none "" (some "Basic abc") [] (some bIngestW) []
      rfl (Or.inr ⟨"Basic abc", rfl, by decide⟩),
    h.2.2.2.1 envNTokW dsNW "/api/ingest" none none "" (some "Bearer wrong") [] (some bIngestW) []
      rfl (Or.inr ⟨"Bearer wrong", rfl, by decide⟩),
    h.2.2.2.2.2.2 envNW dsNW "/api/ingest" none none "" (some "anything") none [] (some bIngestW) []
      rfl⟩

/-- Claim C5: with the sync endpoint configured, an upstream 429 or 409
yields the Skipped cooldown object, any other non-2xx yields a Failed
object carrying the upstream status and error text, a network exception
yields a Failed object carrying the exception message, the trigger is a
total function (it never raises), and the enclosing legacy ingestion
response is the success object for every sync outcome. -/
theorem claim_C5_theorem :
    ∀ (env : EnvL), env.accountId ≠ "" → env.apiToken ≠ "" → env.autoragName ≠ "" →
      (∀ t j, triggerAutoRAGSync env (.response 429 t j) =
        .obj [("skipped", .bool true),
              ("reason", .str "Sync is on cooldown (3-minute minimum between syncs)")]) ∧
      (∀ t j, triggerAutoRAGSync env (.response 409 t j) =
        .obj [("skipped", .bool true),
              ("reason", .str "Sync is on cooldown (3-minute minimum between syncs)")]) ∧
      (∀ (s : Nat) t j, upstreamOk s = false → s ≠ 429 → s ≠ 409 →
        triggerAutoRAGSync env (.response s t j) =
          .obj [("error", .bool true),
                ("message", .str ("Sync API error: " ++ toString s ++ " - " ++ t))]) ∧
      (∀ m, triggerAutoRAGSync env (.netFail m) =
        .obj [("error", .bool true), ("message", .str m)]) ∧
      (∀ (ds : DownstreamL) (p : String) (o : Option String) (ct : Option String)
         (acc : String) (au : Option String) (ps : List (String × String)) (b : JVal)
         (hdrs : List (String × String)),
         authOk env.ingestionToken au = true →
         jsTruthy (fieldOr b "path") = true →
         jsTruthy (fieldOr b "content") = true →
         (∀ a, ds.put a = .ok ()) →
         handleIngestionLegacy env ds ⟨"POST", p, o, ct, acc, au, ps, some b⟩ hdrs =
           .ok (legacyJson (.obj [("success", .bool true),
             ("message", .str "Document ingested successfully"),
             ("path", .str (stripLeadingSlash (jsToString (fieldOr b "path")))),
             ("sync", triggerAutoRAGSync env ds.syncUp)]) 200 hdrs)) := by
  intro env h1 h2 h3
  refine ⟨?_, ?_, ?_, ?_, ?_⟩
  · intro t j; simp [triggerAutoRAGSync, h1, h2, h3, upstreamOk]
  · intro t j; simp [triggerAutoRAGSync, h1, h2, h3, upstreamOk]
  · intro s t j hok hs1 hs2
    simp [triggerAutoRAGSync, h1, h2, h3, hok, hs1, hs2]
  · intro m; simp [triggerAutoRAGSync, h1, h2, h3]
  · intro ds p o ct acc au ps b hdrs hauth hpath hcontent hput
    simp [handleIngestionLegacy, hauth, hpath, hcontent, hput]

/-- Claim C5, witness: concrete configured environment; upstream 429 gives
the cooldown Skipped object and the enclosing ingestion response is the
success object with that sync outcome embedded. -/
theorem claim_C5_witness :
    triggerAutoRAGSync envLW (.response 429 "too many" .null) =
      .obj [("skipped", .bool true),
            ("reason", .str "Sync is on cooldown (3-minute minimum between syncs)")] ∧
    handleIngestionLegacy envLW { dsLW with syncUp := .response 429 "too many" .null }
      ⟨"POST", "/api/ingest", none, none, "", none, [], some bIngestW⟩ [] =
      .ok (legacyJson (.obj [("success", .bool true),
        ("message", .str "Document ingested successfully"),
        ("path", .str (stripLeadingSlash (jsToString (fieldOr bIngestW "path")))),
        ("sync", triggerAutoRAGSync envLW (.response 429 "too many" .null))]) 200 []) := by
  have h := claim_C5_theorem envLW (by decide) (by decide) (by decide)
  exact ⟨h.1 "too many" .null,
    h.2.2.2.2 { dsLW with syncUp := .response 429 "too many" .null }
      "/api/ingest" none none "" none [] bIngestW [] rfl (by decide) (by decide)
      (fun a => rfl)⟩

/-- Every MCP response body starts with the jsonrpc tag followed by the
echoed id, so reading the id back gives the id that was embedded. -/
theorem rpcId_shape (id : JVal) (rest : List (String × JVal)) (s : Nat)
    (hdrs : List (String × String)) :
    rpcId (jsonR (.obj (("jsonrpc", .str "2.0") :: ("id", id) :: rest)) s hdrs) =
      some id := rfl

/-- The error code embedded by the MCP error responder is read back. -/
theorem rpcErrCode_mcpError (id : JVal) (cors : List (String × String)) (code : ℚ)
    (msg : String) (data : Option JVal) :
    rpcErrCode (mcpError id cors code msg data) = some code := by
  cases data <;> rfl

/-- The data message embedded by the MCP error responder is read back. -/
theorem rpcErrData_mcpError (id : JVal) (cors : List (String × String)) (code : ℚ)
    (msg m : String) :
    rpcErrData (mcpError id cors code msg (some (.obj [("message", .str m)]))) =
      some (.str m) := rfl

/-- Claim C6: on a tools/call request, a tool name other than ask yields
JSON-RPC error code -32601, an empty or missing query argument yields
-32602, an exception during dispatch yields -32000 with the exception
message in the error data, and every response, on every method, echoes a
present request id unchanged. -/
theorem claim_C6_theorem :
    ∀ (rt : JsRt) (env : EnvN) (ds : DownstreamN) (p : String) (o : Option String)
      (ct : Option String) (acc : String) (au : Option String)
      (ps : List (String × String)) (rpc idv : JVal),
      getField rpc "id" = some idv →
      (rpcId (mcpFetch rt env ds ⟨"POST", p, o, ct, acc, au, ps, some rpc⟩) = some idv) ∧
      (getField rpc "method" = some (.str "tools/call") →
        (isStr (mcpToolName rpc) "ask" = false →
          rpcErrCode (mcpFetch rt env ds ⟨"POST", p, o, ct, acc, au, ps, some rpc⟩) =
            some (-32601)) ∧
        (isStr (mcpToolName rpc) "ask" = true → mcpQuery rpc = "" →
          rpcErrCode (mcpFetch rt env ds ⟨"POST", p, o, ct, acc, au, ps, some rpc⟩) =
            some (-32602)) ∧
        (∀ m, isStr (mcpToolName rpc) "ask" = true → mcpQuery rpc ≠ "" →
          (∀ pr, ds.managed pr = .error m) →
          rpcErrCode (mcpFetch rt env ds ⟨"POST", p, o, ct, acc, au, ps, some rpc⟩) =
            some (-32000) ∧
          rpcErrData (mcpFetch rt env ds ⟨"POST", p, o, ct, acc, au, ps, some rpc⟩) =
            some (.str m))) := by
  intro rt env ds p o ct acc au ps rpc idv hid
  constructor
  · simp only [mcpFetch, mcpError]
    repeat' split
    all_goals first
      | (rw [rpcId_shape]; simp [mcpId, hid])
      | (rename_i hImp; exact absurd hImp (by decide))
  · intro htc
    have e1 : isStr (some (JVal.str "tools/call")) "initialize" = false := rfl
    have e2 : isStr (some (JVal.str "tools/call")) "tools/list" = false := rfl
    have e3 : isStr (some (JVal.str "tools/call")) "tools/call" = true := rfl
    refine ⟨?_, ?_, ?_⟩
    · intro hname
      simp [mcpFetch, htc, e1, e2, e3, hname, rpcErrCode_mcpError]
    · intro hname hq
      simp [mcpFetch, htc, e1, e2, e3, hname, hq, rpcErrCode_mcpError]
    · intro m hname hq hman
      simp [mcpFetch, htc, e1, e2, e3, hname, hq, aiSearch, hman,
        rpcErrCode_mcpError, rpcErrData_mcpError]

/-- Claim C6, witness: a concrete tools/call with tool name nope and id
req-7 is answered with error code -32601 and the id echoed. -/
theorem claim_C6_witness :
    rpcId (mcpFetch rtW envNW dsNW reqMcpBadToolW) = some (.str "req-7") ∧
    rpcErrCode (mcpFetch rtW envNW dsNW reqMcpBadToolW) = some (-32601) := by
  have h := claim_C6_theorem rtW envNW dsNW "/mcp" none (some "application/json") ""
    none []
    (.obj [("jsonrpc", .str "2.0"), ("id", .str "req-7"),
      ("method", .str "tools/call"), ("params", .obj [("name", .str "nope")])])
    (.str "req-7") rfl
  exact ⟨h.1, (h.2 rfl).1 rfl⟩

/-- Claim C4, counterexample: the legacy search handler dispatches a
whitespace-only query instead of rejecting it, because its validation is a
truthiness test with no trimming (src/unnamed/part_001 line 98); with an AI
binding present the response is a 200. -/
theorem claim_C4_counterexample :
    handleSearchLegacy envLW dsLBindW
      ⟨"POST", "/api/autorag-search", none, some "application/json", "", none, [],
       some (.obj [("query", .str "   ")])⟩ [] = .ok (legacyJson .null 200 []) ∧
    (legacyJson .null 200 []).status ≠ 400 := by
  exact ⟨rfl, by decide⟩

/-- Claim C4 as amended: the new worker returns the 400 missing-query
response whenever the query trims to empty; the legacy worker returns its
400 response exactly when the query field is falsy (missing or the empty
string), so a whitespace-only query passes its validation. -/
theorem claim_C4_amended :
    (∀ (rt : JsRt) (env : EnvN) (ds : DownstreamN) (p : String) (o : Option String)
       (ct acc : String) (au : Option String) (ps : List (String × String))
       (b : JVal) (raw : String) (cors : List (String × String)),
       strContains ct "json" = true →
       getField b "query" = some (.str raw) →
       jsTrim raw = "" →
       handleAskNew rt env ds ⟨"POST", p, o, some ct, acc, au, ps, some b⟩ cors =
         .ok (jsonR (.obj [("error", .str "Missing 'query' parameter")]) 400 cors)) ∧
    (∀ (env : EnvL) (ds : DownstreamL) (p : String) (o : Option String)
       (ct : Option String) (acc : String) (au : Option String)
       (ps : List (String × String)) (b : JVal) (hdrs : List (String × String)),
       (handleSearchLegacy env ds ⟨"POST", p, o, ct, acc, au, ps, some b⟩ hdrs =
          .ok (legacyJson (.obj [("error", .str "Query is required")]) 400 hdrs)) ↔
         jsTruthy (fieldOr b "query") = false) := by
  constructor
  · intro rt env ds p o ct acc au ps b raw cors hct hq htrim
    have hquery :
        (askInvocation rt env ⟨"POST", p, o, some ct, acc, au, ps, some b⟩).query = "" := by
      simp only [askInvocation, hct]
      by_cases hr : raw = "" <;>
        simp [hq, fieldOr, jsOr, jsTruthy, jsToString, hr, htrim] <;>
        try decide
    simp [handleAskNew, hquery]
  · intro env ds p o ct acc au ps b hdrs
    by_cases hq : jsTruthy (fieldOr b "query")
    · simp only [handleSearchLegacy, hq, Bool.not_true]
      repeat' split
      all_goals
        first
          | (rename_i hImp; exact absurd hImp (by decide))
          | (simp [legacyJson, Response.mk.injEq, hq])
    · simp [handleSearchLegacy, hq]

/-- Claim C4 amended, witness: a whitespace-only JSON query gives the 400 on
the new worker, and an empty-string query gives the 400 on the legacy
worker. -/
theorem claim_C4_witness :
    handleAskNew rtW envNW dsNW reqAskWsW [] =
      .ok (jsonR (.obj [("error", .str "Missing 'query' parameter")]) 400 []) ∧
    handleSearchLegacy envLW dsLW
      ⟨"POST", "/api/autorag-search", none, none, "", none, [],
       some (.obj [("query", .str "")])⟩ [] =
      .ok (legacyJson (.obj [("error", .str "Query is required")]) 400 []) := by
  exact ⟨claim_C4_amended.1 rtW envNW dsNW "/ask" none "application/json" "" none []
      (.obj [("query", .str "   "), ("topK", .num 3)]) "   " [] (by decide) rfl (by decide),
    (claim_C4_amended.2 envLW dsLW "/api/autorag-search" none none "" none []
      (.obj [("query", .str "")]) []).mpr (by decide)⟩
